import Mathlib

/-!
Shallow embedding of the session-scoped streaming workflow client of the
newrev repository.

The embedded code is the inbound-event handling of the React components:

* `ChatInterface` (src/client/src/components/ChatInterface.jsx) in its two
  variants: the socket variant (first document in the file) and the
  eventsource variant (second document in the file);
* `PrdGenerator` (the workflow state machine component, final document of
  src/client/src/services/api.js), which owns the PRD / task-list / task
  execution streams;
* `FileManager` (src/client/src/components/FileManager.jsx, and the enhanced
  variant in src/unnamed/part_001), which owns the in-chat file membership
  view.

React `useState` setters are modelled by explicit state records; each JS
event handler becomes a function from the current state and the event
payload to the next state.  Possibly-absent JS payload fields are modelled
as `Option` values, and the JS coercions the handlers rely on
(`x || ""`, string truthiness, `undefined` rendering inside string
concatenation) are modelled explicitly.
-/

namespace Newrev

/-- JS string truthiness: a string is truthy iff it is nonempty. -/
def jsTruthy (s : String) : Bool := s != ""

/-- JS coercion applied by `+` string concatenation to a possibly-undefined
operand: `undefined` renders as the text "undefined". -/
def jsStr : Option String → String
  | some s => s
  | none => "undefined"

/-- JS `x || ""` on a possibly-undefined string: a missing value is replaced
by the empty string. -/
def jsOrEmpty : Option String → String
  | some s => s
  | none => ""

/-- Concatenation of a list of fragments in delivery order. -/
def concatStrings : List String → String
  | [] => ""
  | c :: cs => c ++ concatStrings cs

/-- JS `Array.prototype.findIndex` followed by an update of the found
element: the first list element satisfying `p` is replaced by its image
under `f`; when no element matches, the list is returned unchanged. -/
def updateFirst (p : α → Bool) (f : α → α) : List α → List α
  | [] => []
  | a :: as => if p a then f a :: as else a :: updateFirst p f as

/-- A chat message as built by the `ChatInterface` handlers.  The `hash`,
`message` and `diff` fields are set only by the commit handler. -/
structure Message where
  role : String
  content : String
  hash : Option String
  message : Option String
  diff : Option String
deriving Repr, DecidableEq

/-- Plain message carrying only a role and a content string. -/
def plainMsg (role content : String) : Message :=
  { role := role, content := content, hash := none, message := none, diff := none }

/-- The `ChatInterface` component state mutated by its inbound-event
handlers: the conversation history, the live streaming buffer, and the
loading flag. -/
structure ChatState where
  messages : List Message
  streamingContent : String
  isLoading : Bool
deriving Repr, DecidableEq

/-- `handleMessageChunk` (both ChatInterface variants, lines 35-41): append
`data.chunk || ""` to the streaming buffer when the session matches. -/
def handleMessageChunk (sid : String) (s : ChatState) (session_id : String)
    (chunk : Option String) : ChatState :=
  if session_id = sid then
    { s with streamingContent := s.streamingContent ++ jsOrEmpty chunk }
  else s

/-- `handleMessageComplete`, socket variant (ChatInterface lines 44-55):
when the session matches, unconditionally append an assistant message
holding the streaming buffer, then clear the buffer and the loading flag. -/
def handleMessageComplete (sid : String) (s : ChatState) (session_id : String) : ChatState :=
  if session_id = sid then
    { s with
      messages := s.messages ++ [plainMsg "assistant" s.streamingContent]
      streamingContent := ""
      isLoading := false }
  else s

/-- `handleMessageComplete`, eventsource variant (ChatInterface lines
307-319): identical to the socket variant except that the assistant message
is appended only when the streaming buffer is truthy (nonempty). -/
def handleMessageCompleteES (sid : String) (s : ChatState) (session_id : String) : ChatState :=
  if session_id = sid then
    { s with
      messages :=
        if jsTruthy s.streamingContent then
          s.messages ++ [plainMsg "assistant" s.streamingContent]
        else s.messages
      streamingContent := ""
      isLoading := false }
  else s

/-- `handleFilesEdited` (ChatInterface): append an info message listing the
edited files when the session matches. -/
def handleFilesEdited (sid : String) (s : ChatState) (session_id : String)
    (files : List String) : ChatState :=
  if session_id = sid then
    { s with messages :=
        s.messages ++ [plainMsg "info" ("Files edited: " ++ String.intercalate ", " files)] }
  else s

/-- `handleCommit` (ChatInterface): append a commit message carrying the
hash, commit message and diff when the session matches. -/
def handleCommit (sid : String) (s : ChatState) (session_id : String)
    (hash msg diff : String) : ChatState :=
  if session_id = sid then
    { s with messages := s.messages ++
        [{ role := "commit"
           content := "Commit: " ++ hash ++ "\nMessage: " ++ msg
           hash := some hash
           message := some msg
           diff := some diff }] }
  else s

/-- `handleError` (ChatInterface, eventsource variant): append an error
message and clear the loading flag when the session matches. -/
def handleError (sid : String) (s : ChatState) (session_id : String)
    (msg : String) : ChatState :=
  if session_id = sid then
    { s with
      messages := s.messages ++ [plainMsg "error" msg]
      isLoading := false }
  else s

/-- A subtask of a generated task, as rendered by `PrdGenerator`. -/
structure Subtask where
  name : String
  description : String
deriving Repr, DecidableEq

/-- A generated task, as rendered by `PrdGenerator`. -/
structure Task where
  name : String
  description : String
  subtasks : List Subtask
deriving Repr, DecidableEq

/-- The `data.task_result` payload of a `task_completed` event.  Every field
except the task name may be absent. -/
structure TaskResultPayload where
  task_name : String
  description : Option String
  result : Option String
  commit_hash : Option String
  commit_message : Option String
  edited_files : Option (List String)
deriving Repr, DecidableEq

/-- One entry of the `taskResults` list of `PrdGenerator`.  The shape is
the union of what `handleTaskStarted` creates and what `handleTaskCompleted`
substitutes: absent JS fields are `none`. -/
structure TaskEntry where
  task_name : String
  description : Option String
  result : Option String
  status : String
  commit_hash : Option String
  commit_message : Option String
  edited_files : Option (List String)
deriving Repr, DecidableEq

/-- The entry `handleTaskCompleted` writes for payload `p`: every field of
the payload is spread in wholesale and the status is set to completed. -/
def entryOfPayload (p : TaskResultPayload) : TaskEntry :=
  { task_name := p.task_name
    description := p.description
    result := p.result
    status := "completed"
    commit_hash := p.commit_hash
    commit_message := p.commit_message
    edited_files := p.edited_files }

/-- The `PrdGenerator` component state mutated by its inbound-event
handlers.  `activeStep` is the workflow stage index into the stepper
[Project Description, Generate PRD, Generate Tasks, Execute Tasks]:
2 is reached when the PRD is ready, 3 when the task list is ready. -/
structure PrdState where
  activeStep : Nat
  prd : String
  tasks : List Task
  loading : Bool
  streamingContent : String
  error : Option String
  taskResults : List TaskEntry
  executionStarted : Bool
  executionComplete : Bool
deriving Repr, DecidableEq

/-- `handlePrdChunk` (PrdGenerator): append `data.chunk || ""` to the
streaming buffer when the session matches. -/
def handlePrdChunk (sid : String) (s : PrdState) (session_id : String)
    (chunk : Option String) : PrdState :=
  if session_id = sid then
    { s with streamingContent := s.streamingContent ++ jsOrEmpty chunk }
  else s

/-- `handlePrdComplete` (PrdGenerator): when the session matches, store the
authoritative PRD text, clear the loading flag and set the stage to 2
(PRD ready), with no guard on the current stage. -/
def handlePrdComplete (sid : String) (s : PrdState) (session_id : String)
    (prd : String) : PrdState :=
  if session_id = sid then
    { s with prd := prd, loading := false, activeStep := 2 }
  else s

/-- `handleTasksChunk` (PrdGenerator): append `data.chunk || ""` to the
streaming buffer when the session matches. -/
def handleTasksChunk (sid : String) (s : PrdState) (session_id : String)
    (chunk : Option String) : PrdState :=
  if session_id = sid then
    { s with streamingContent := s.streamingContent ++ jsOrEmpty chunk }
  else s

/-- `handleTasksComplete` (PrdGenerator).  The `tasks` argument models
`data.tasks`: the outer option is the presence of the `tasks` object, the
inner option the presence of its `tasks` list (`data.tasks.tasks || []`).
When `data.tasks` is absent and `data.tasks_text` is truthy, an error
string is set and the raw text is kept in the streaming buffer for
display.  In every matching case the loading flag is cleared and the stage
set to 3 (tasks ready). -/
def handleTasksComplete (sid : String) (s : PrdState) (session_id : String)
    (tasks : Option (Option (List Task))) (tasks_text : Option String) : PrdState :=
  if session_id = sid then
    let s1 :=
      match tasks with
      | some tlist => { s with tasks := tlist.getD [] }
      | none =>
        match tasks_text with
        | some t =>
          if jsTruthy t then
            { s with
              error := some "Tasks were generated but not in the expected format"
              streamingContent := t }
          else s
        | none => s
    { s1 with loading := false, activeStep := 3 }
  else s

/-- `handleTaskStarted` (PrdGenerator): when the session matches, append a
fresh running entry with empty result text. -/
def handleTaskStarted (sid : String) (s : PrdState) (session_id : String)
    (task_name : String) (description : Option String) : PrdState :=
  if session_id = sid then
    { s with taskResults := s.taskResults ++
        [{ task_name := task_name
           description := description
           result := some ""
           status := "running"
           commit_hash := none
           commit_message := none
           edited_files := none }] }
  else s

/-- The in-place update `updatedResults[index].result += data.chunk`
performed by `handleTaskChunk` on the entry found by name. -/
def applyChunk (chunk : Option String) (e : TaskEntry) : TaskEntry :=
  { e with result := some (jsStr e.result ++ jsStr chunk) }

/-- `handleTaskChunk` (PrdGenerator): when the session matches, look up the
first `taskResults` entry whose `task_name` equals the payload name — with
no condition on its status — and append the chunk to its result; when no
entry matches, the list is left unchanged. -/
def handleTaskChunk (sid : String) (s : PrdState) (session_id : String)
    (task_name : String) (chunk : Option String) : PrdState :=
  if session_id = sid then
    { s with taskResults :=
        updateFirst (fun r => r.task_name == task_name) (applyChunk chunk) s.taskResults }
  else s

/-- `handleTaskCompleted` (PrdGenerator): when the session matches, replace
the first entry whose `task_name` equals `task_result.task_name` wholesale
by the payload fields with status completed. -/
def handleTaskCompleted (sid : String) (s : PrdState) (session_id : String)
    (task_result : TaskResultPayload) : PrdState :=
  if session_id = sid then
    { s with taskResults :=
        (updateFirst (fun r => r.task_name == task_result.task_name)
          (fun _ => entryOfPayload task_result) s.taskResults) }
  else s

/-- `handleTasksExecutionStarted` (PrdGenerator). -/
def handleTasksExecutionStarted (sid : String) (s : PrdState)
    (session_id : String) : PrdState :=
  if session_id = sid then { s with executionStarted := true } else s

/-- `handleTasksExecutionCompleted` (PrdGenerator). -/
def handleTasksExecutionCompleted (sid : String) (s : PrdState)
    (session_id : String) : PrdState :=
  if session_id = sid then { s with executionComplete := true, loading := false } else s

/-- The `FileManager` component state touched by the membership
operations: the full server-supplied file list, the in-chat subset, the
loading flag and the error banner. -/
structure FileState where
  files : List String
  inchatFiles : List String
  isLoading : Bool
  error : Option String
deriving Repr, DecidableEq

/-- Acknowledgement body of an add/remove request. -/
structure ApiResponse where
  status : String
deriving Repr, DecidableEq

/-- Resolution of an add/remove request: either a response object, or a
thrown transport error with a message. -/
inductive ApiOutcome where
  | ok (resp : ApiResponse)
  | exn (msg : String)
deriving Repr, DecidableEq

/-- The request a membership operation sends to the file service. -/
inductive FileRequest where
  | add (filename : String)
  | remove (filename : String)
deriving Repr, DecidableEq

/-- `handleAddFile` (FileManager lines 51-65): early return when the file is
already in chat; otherwise issue the add request and, on a success
acknowledgement, append the file to the in-chat set.  A non-success
acknowledgement changes nothing but the loading flag; a thrown error sets
the error banner.  The returned option is the request issued, if any. -/
def handleAddFile (s : FileState) (filename : String)
    (outcome : ApiOutcome) : FileState × Option FileRequest :=
  if s.inchatFiles.contains filename then (s, none)
  else
    match outcome with
    | .ok resp =>
      if resp.status = "success" then
        ({ s with inchatFiles := s.inchatFiles ++ [filename], isLoading := false },
         some (.add filename))
      else
        ({ s with isLoading := false }, some (.add filename))
    | .exn m =>
      ({ s with error := some ("Error adding file: " ++ m), isLoading := false },
       some (.add filename))

/-- `handleRemoveFile` (FileManager lines 67-81): early return when the file
is not in chat; otherwise issue the remove request and, on a success
acknowledgement, filter the file out of the in-chat set. -/
def handleRemoveFile (s : FileState) (filename : String)
    (outcome : ApiOutcome) : FileState × Option FileRequest :=
  if !(s.inchatFiles.contains filename) then (s, none)
  else
    match outcome with
    | .ok resp =>
      if resp.status = "success" then
        ({ s with inchatFiles := s.inchatFiles.filter (fun f => f != filename),
                  isLoading := false },
         some (.remove filename))
      else
        ({ s with isLoading := false }, some (.remove filename))
    | .exn m =>
      ({ s with error := some ("Error removing file: " ++ m), isLoading := false },
       some (.remove filename))

/-- `handleToggleFile` (FileManager lines 83-89): remove when the file is in
the in-chat set, add otherwise. -/
def handleToggleFile (s : FileState) (filename : String)
    (outcome : ApiOutcome) : FileState × Option FileRequest :=
  if s.inchatFiles.contains filename then
    handleRemoveFile s filename outcome
  else
    handleAddFile s filename outcome

/-- Character-list version of JS `String.prototype.startsWith`. -/
def chListStartsWith : List Char → List Char → Bool
  | _, [] => true
  | [], _ :: _ => false
  | a :: as, b :: bs => a == b && chListStartsWith as bs

/-- Character-list version of JS `String.prototype.includes`: substring
containment (the empty pattern is contained in every string). -/
def chListIncludes : List Char → List Char → Bool
  | [], pat => pat.isEmpty
  | a :: rest, pat => chListStartsWith (a :: rest) pat || chListIncludes rest pat

/-- JS `s.includes(pat)`. -/
def jsIncludes (s pat : String) : Bool := chListIncludes s.data pat.data

/-- JS `s.toLowerCase()`, modelled per character. -/
def jsToLower (s : String) : String := ⟨s.data.map Char.toLower⟩

/-- The search match of both FileManager variants:
`file.toLowerCase().includes(searchTerm.toLowerCase())`. -/
def fileMatches (searchTerm file : String) : Bool :=
  jsIncludes (jsToLower file) (jsToLower searchTerm)

/-- `filteredFiles` of the basic FileManager
(src/client/src/components/FileManager.jsx line 91): the search filter
applied to the server-supplied list, order kept as-is. -/
def filteredFiles (files : List String) (searchTerm : String) : List String :=
  files.filter (fun file => fileMatches searchTerm file)

/-- `filteredFiles` of the enhanced FileManager (src/unnamed/part_001 lines
113-118): the search-matching files, with the matching in-chat entries
first, then the matching not-in-chat entries. -/
def filteredFilesInChatFirst (files inchatFiles : List String)
    (searchTerm : String) : List String :=
  let matchingFiles := files.filter (fun file => fileMatches searchTerm file)
  let inChatMatching := matchingFiles.filter (fun file => inchatFiles.contains file)
  let notInChatMatching := matchingFiles.filter (fun file => !(inchatFiles.contains file))
  inChatMatching ++ notInChatMatching

/-- The inbound server-to-client events, tagged by kind, each carrying its
correlation `session_id` and kind-specific payload fields. -/
inductive Event where
  | message_chunk (session_id : String) (chunk : Option String)
  | message_complete (session_id : String)
  | files_edited (session_id : String) (files : List String)
  | commit (session_id : String) (hash msg diff : String)
  | error (session_id : String) (msg : String)
  | prd_chunk (session_id : String) (chunk : Option String)
  | prd_complete (session_id : String) (prd : String)
  | tasks_chunk (session_id : String) (chunk : Option String)
  | tasks_complete (session_id : String) (tasks : Option (Option (List Task)))
      (tasks_text : Option String)
  | task_started (session_id : String) (task_name : String) (description : Option String)
  | task_chunk (session_id : String) (task_name : String) (chunk : Option String)
  | task_completed (session_id : String) (task_result : TaskResultPayload)
  | tasks_execution_started (session_id : String)
  | tasks_execution_completed (session_id : String)
deriving Repr, DecidableEq

/-- The correlation field carried by every inbound event. -/
def Event.sessionId : Event → String
  | .message_chunk s _ => s
  | .message_complete s => s
  | .files_edited s _ => s
  | .commit s _ _ _ => s
  | .error s _ => s
  | .prd_chunk s _ => s
  | .prd_complete s _ => s
  | .tasks_chunk s _ => s
  | .tasks_complete s _ _ => s
  | .task_started s _ _ => s
  | .task_chunk s _ _ => s
  | .task_completed s _ => s
  | .tasks_execution_started s => s
  | .tasks_execution_completed s => s

/-- The per-session client state: the chat component state plus the
workflow component state. -/
structure AppState where
  chat : ChatState
  prdGen : PrdState
deriving Repr, DecidableEq

/-- One step of inbound-event processing by the session-scoped components:
each event kind is dispatched to the handler that ChatInterface (chat
events, with the error handler taken from the eventsource variant, which
is the only one registering it) and PrdGenerator (workflow events)
register for it.  All of these handlers guard on the session identifier.
The TestConnection dialog registers its own, unguarded, message handlers
on a separate socket; they are embedded below as `testHandleMessageChunk`
and `testHandleMessageComplete` and are not part of this dispatcher. -/
def step (sid : String) (a : AppState) (e : Event) : AppState :=
  match e with
  | .message_chunk s c => { a with chat := handleMessageChunk sid a.chat s c }
  | .message_complete s => { a with chat := handleMessageComplete sid a.chat s }
  | .files_edited s fs => { a with chat := handleFilesEdited sid a.chat s fs }
  | .commit s h m d => { a with chat := handleCommit sid a.chat s h m d }
  | .error s m => { a with chat := handleError sid a.chat s m }
  | .prd_chunk s c => { a with prdGen := handlePrdChunk sid a.prdGen s c }
  | .prd_complete s p => { a with prdGen := handlePrdComplete sid a.prdGen s p }
  | .tasks_chunk s c => { a with prdGen := handleTasksChunk sid a.prdGen s c }
  | .tasks_complete s t tt => { a with prdGen := handleTasksComplete sid a.prdGen s t tt }
  | .task_started s n d => { a with prdGen := handleTaskStarted sid a.prdGen s n d }
  | .task_chunk s n c => { a with prdGen := handleTaskChunk sid a.prdGen s n c }
  | .task_completed s tr => { a with prdGen := handleTaskCompleted sid a.prdGen s tr }
  | .tasks_execution_started s => { a with prdGen := handleTasksExecutionStarted sid a.prdGen s }
  | .tasks_execution_completed s =>
      { a with prdGen := handleTasksExecutionCompleted sid a.prdGen s }

/-- The `TestConnection` component state touched by its message handlers
(src/unnamed/part_000): the received message list, the streaming buffer
and the sending flag. -/
structure TestState where
  messages : List String
  streamingContent : String
  isSending : Bool
deriving Repr, DecidableEq

/-- The `message_chunk` handler of TestConnection (src/unnamed/part_000
lines 71-74): it appends `data.chunk || ""` to the streaming buffer with
no guard at all on `data.session_id` (the field is received but never
read). -/
def testHandleMessageChunk (s : TestState) (_session_id : String)
    (chunk : Option String) : TestState :=
  { s with streamingContent := s.streamingContent ++ jsOrEmpty chunk }

/-- The `message_complete` handler of TestConnection (src/unnamed/part_000
lines 77-82): it appends the streaming buffer to the message list, clears
the buffer and clears the sending flag, again with no guard on
`data.session_id`. -/
def testHandleMessageComplete (s : TestState) (_session_id : String) : TestState :=
  { s with
    messages := s.messages ++ [s.streamingContent]
    streamingContent := ""
    isSending := false }

/-! Helper lemmas about `updateFirst` and the chunk folds. -/

theorem updateFirst_no_match (p : α → Bool) (f : α → α) (l : List α)
    (h : ∀ x ∈ l, p x = false) : updateFirst p f l = l := by
  induction l with
  | nil => rfl
  | cons a as ih =>
    have ha : p a = false := h a (by simp)
    have has : ∀ x ∈ as, p x = false := fun x hx => h x (by simp [hx])
    simp [updateFirst, ha, ih has]

theorem updateFirst_append_last (p : α → Bool) (f : α → α) (l : List α) (a : α)
    (h : ∀ x ∈ l, p x = false) (ha : p a = true) :
    updateFirst p f (l ++ [a]) = l ++ [f a] := by
  induction l with
  | nil => simp [updateFirst, ha]
  | cons b bs ih =>
    have hb : p b = false := h b (by simp)
    have hbs : ∀ x ∈ bs, p x = false := fun x hx => h x (by simp [hx])
    simp [updateFirst, hb, ih hbs]

theorem foldl_messageChunks (sid : String) (cs : List String) (s : ChatState) :
    cs.foldl (fun st c => handleMessageChunk sid st sid (some c)) s
      = { s with streamingContent := s.streamingContent ++ concatStrings cs } := by
  induction cs generalizing s with
  | nil => simp [concatStrings]
  | cons c cs ih =>
    simp only [List.foldl_cons]
    rw [show handleMessageChunk sid s sid (some c)
          = { s with streamingContent := s.streamingContent ++ c } by
        simp [handleMessageChunk, jsOrEmpty]]
    rw [ih]
    simp [concatStrings, String.append_assoc]

theorem applyChunk_task_name (c : Option String) (e : TaskEntry) :
    (applyChunk c e).task_name = e.task_name := rfl

theorem foldl_applyChunk_task_name (cs : List (Option String)) (e : TaskEntry) :
    (cs.foldl (fun ac c => applyChunk c ac) e).task_name = e.task_name := by
  induction cs generalizing e with
  | nil => rfl
  | cons c cs ih =>
    simp only [List.foldl_cons]
    rw [ih (applyChunk c e), applyChunk_task_name]

theorem updateFirst_chunk_foldl (n : String) (cs : List (Option String))
    (l : List TaskEntry) (e : TaskEntry)
    (hl : ∀ x ∈ l, (x.task_name == n) = false) (he : e.task_name = n) :
    cs.foldl
        (fun res c => updateFirst (fun r => r.task_name == n) (applyChunk c) res)
        (l ++ [e])
      = l ++ [cs.foldl (fun ac c => applyChunk c ac) e] := by
  induction cs generalizing e with
  | nil => simp
  | cons c cs ih =>
    simp only [List.foldl_cons]
    rw [updateFirst_append_last _ _ l e hl (by simp [he])]
    exact ih (applyChunk c e) (by rw [applyChunk_task_name]; exact he)

theorem foldl_taskChunks_state (sid n : String) (cs : List (Option String)) (s : PrdState) :
    cs.foldl (fun st c => handleTaskChunk sid st sid n c) s
      = { s with taskResults :=
            (cs.foldl
              (fun res c => updateFirst (fun r => r.task_name == n) (applyChunk c) res)
              s.taskResults) } := by
  induction cs generalizing s with
  | nil => rfl
  | cons c cs ih =>
    simp only [List.foldl_cons]
    rw [ih]
    simp [handleTaskChunk]

/-! Theorems for the claims. -/

/-- C1: for every sequence of `message_chunk` events for the active session
followed by one `message_complete` event (whose payload carries no content
field the handler would consult), the message appended to the conversation
history has role assistant and content equal to the concatenation of the
chunk fields in delivery order. -/
theorem C1_message_content_is_chunk_concat (sid : String) (s0 : ChatState)
    (cs : List String) (h : s0.streamingContent = "") :
    (handleMessageComplete sid
        (cs.foldl (fun st c => handleMessageChunk sid st sid (some c)) s0) sid).messages
      = s0.messages ++ [plainMsg "assistant" (concatStrings cs)] := by
  rw [foldl_messageChunks]
  simp [handleMessageComplete, h]

theorem C1_message_content_is_chunk_concat_witness :
    (⟨[], "", false⟩ : ChatState).streamingContent = "" ∧
    (handleMessageComplete "s"
        ((["He", "llo"]).foldl (fun st c => handleMessageChunk "s" st "s" (some c))
          ⟨[], "", false⟩) "s").messages
      = [plainMsg "assistant" "Hello"] := by
  refine ⟨rfl, ?_⟩
  have h := C1_message_content_is_chunk_concat "s" ⟨[], "", false⟩ ["He", "llo"] rfl
  rw [h]
  decide

/-- C2 (counterexample): the TestConnection message handlers carry no
session guard: a `message_chunk` whose session identifier "other" differs
from the session "test_session" the dialog uses still mutates the
streaming buffer of the session state. -/
theorem C2_counterexample :
    testHandleMessageChunk ⟨[], "", true⟩ "other" (some "x")
      = (⟨[], "x", true⟩ : TestState) ∧
    (⟨[], "x", true⟩ : TestState) ≠ (⟨[], "", true⟩ : TestState) ∧
    ("other" : String) ≠ "test_session" := by decide

/-- C2 (amended): for every inbound event of any kind whose `session_id`
differs from the active session identifier, the session-scoped handlers
registered by ChatInterface and PrdGenerator leave all session state
(messages, streaming buffer, stage, task list, task results, loading
flags) unchanged; the TestConnection message handlers, by contrast, have
no session guard and mutate their state whatever the session identifier
of the event: a nonempty chunk changes the streaming buffer and a
completion always changes the message list. -/
theorem C2_amended_guarded_isolation (sid : String) (a : AppState) (e : Event)
    (h : e.sessionId ≠ sid) (ts : TestState) (other c : String) (hc : c ≠ "") :
    step sid a e = a ∧
    testHandleMessageChunk ts other (some c) ≠ ts ∧
    testHandleMessageComplete ts other ≠ ts := by
  refine ⟨?_, ?_, ?_⟩
  · cases e <;>
      simp_all [step, Event.sessionId, handleMessageChunk, handleMessageComplete,
        handleFilesEdited, handleCommit, handleError, handlePrdChunk, handlePrdComplete,
        handleTasksChunk, handleTasksComplete, handleTaskStarted, handleTaskChunk,
        handleTaskCompleted, handleTasksExecutionStarted, handleTasksExecutionCompleted]
  · intro heq
    apply hc
    have h2 := congrArg (fun t => t.streamingContent.data) heq
    simp [testHandleMessageChunk, jsOrEmpty] at h2
    exact String.ext (by simp [h2])
  · intro heq
    have h2 := congrArg (fun t => t.messages.length) heq
    simp [testHandleMessageComplete] at h2

theorem C2_amended_guarded_isolation_witness :
    (Event.message_chunk "other" (some "x")).sessionId ≠ "active" ∧
    ("x" : String) ≠ "" ∧
    (step "active"
        ⟨⟨[], "", false⟩, ⟨0, "", [], false, "", none, [], false, false⟩⟩
        (Event.message_chunk "other" (some "x"))
      = ⟨⟨[], "", false⟩, ⟨0, "", [], false, "", none, [], false, false⟩⟩ ∧
     testHandleMessageChunk ⟨[], "", true⟩ "other" (some "x") ≠ ⟨[], "", true⟩ ∧
     testHandleMessageComplete ⟨[], "", true⟩ "other" ≠ ⟨[], "", true⟩) :=
  ⟨by decide, by decide,
   C2_amended_guarded_isolation "active" _ _ (by decide) ⟨[], "", true⟩ "other" "x"
     (by decide)⟩

/-- C3 (counterexample): from the stage reached by `tasks_complete`
(activeStep 3, TasksReady), a duplicate or delayed `prd_complete` for the
active session does not leave the stage unchanged: `handlePrdComplete`
sets the stage back to 2 (PRDReady) unconditionally. -/
theorem C3_counterexample :
    (handlePrdComplete "s" ⟨3, "", [], false, "", none, [], false, false⟩ "s" "p").activeStep
      = 2 ∧
    (handlePrdComplete "s" ⟨3, "", [], false, "", none, [], false, false⟩ "s" "p").activeStep
      ≠ 3 := by decide

/-- C3 (amended): the workflow stage can regress: there is no idempotent
transition guard, and for every state whose stage has reached 3
(TasksReady) or beyond, processing a duplicate or delayed `prd_complete`
event for the active session sets the stage back to 2 (PRDReady), a strict
regression. -/
theorem C3_amended_prd_complete_regresses_stage (sid prd : String) (s : PrdState)
    (h : 3 ≤ s.activeStep) :
    (handlePrdComplete sid s sid prd).activeStep = 2 ∧
    (handlePrdComplete sid s sid prd).activeStep < s.activeStep := by
  constructor
  · simp [handlePrdComplete]
  · simp [handlePrdComplete]
    omega

theorem C3_amended_prd_complete_regresses_stage_witness :
    3 ≤ (⟨3, "", [], false, "", none, [], false, false⟩ : PrdState).activeStep ∧
    ((handlePrdComplete "s" ⟨3, "", [], false, "", none, [], false, false⟩ "s" "p").activeStep
        = 2 ∧
     (handlePrdComplete "s" ⟨3, "", [], false, "", none, [], false, false⟩ "s" "p").activeStep
        < (⟨3, "", [], false, "", none, [], false, false⟩ : PrdState).activeStep) :=
  ⟨by decide, C3_amended_prd_complete_regresses_stage "s" "p" _ (by decide)⟩

/-- C4: for every trace of a `task_started` event for a task name, any
number of `task_chunk` events for that name, and a `task_completed` event
whose `task_result` carries that name (all for the active session, started
on a task-results list with no entry of that name), the final entry for
that name has status completed and its fields equal the payload fields
wholesale: the accumulated chunk text is discarded, not merged. -/
theorem C4_task_completed_overwrites_wholesale (sid n : String) (d : Option String)
    (cs : List (Option String)) (p : TaskResultPayload) (s0 : PrdState)
    (hprior : ∀ r ∈ s0.taskResults, r.task_name ≠ n) (hp : p.task_name = n) :
    (handleTaskCompleted sid
        (cs.foldl (fun st c => handleTaskChunk sid st sid n c)
          (handleTaskStarted sid s0 sid n d)) sid p).taskResults
      = s0.taskResults ++ [entryOfPayload p] ∧
    (entryOfPayload p).status = "completed" := by
  refine ⟨?_, rfl⟩
  have hl : ∀ x ∈ s0.taskResults, (x.task_name == n) = false := by
    intro x hx
    simpa using hprior x hx
  have hl2 : ∀ x ∈ s0.taskResults, (x.task_name == p.task_name) = false := by
    intro x hx
    rw [hp]
    exact hl x hx
  have h1 : handleTaskStarted sid s0 sid n d
      = { s0 with taskResults := s0.taskResults ++
            [(⟨n, d, some "", "running", none, none, none⟩ : TaskEntry)] } := by
    simp [handleTaskStarted]
  have h2 : (cs.foldl (fun st c => handleTaskChunk sid st sid n c)
        (handleTaskStarted sid s0 sid n d)).taskResults
      = s0.taskResults ++
        [cs.foldl (fun ac c => applyChunk c ac)
          (⟨n, d, some "", "running", none, none, none⟩ : TaskEntry)] := by
    rw [h1, foldl_taskChunks_state]
    exact updateFirst_chunk_foldl n cs s0.taskResults _ hl rfl
  have h4 : (handleTaskCompleted sid
        (cs.foldl (fun st c => handleTaskChunk sid st sid n c)
          (handleTaskStarted sid s0 sid n d)) sid p).taskResults
      = updateFirst (fun r => r.task_name == p.task_name) (fun _ => entryOfPayload p)
          (cs.foldl (fun st c => handleTaskChunk sid st sid n c)
            (handleTaskStarted sid s0 sid n d)).taskResults := by
    simp [handleTaskCompleted]
  rw [h4, h2]
  exact updateFirst_append_last _ _ _ _ hl2
    (by rw [foldl_applyChunk_task_name]; simp [hp])

theorem C4_task_completed_overwrites_wholesale_witness :
    (handleTaskCompleted "s"
        (([some "cha", some "nge"] : List (Option String)).foldl
          (fun st c => handleTaskChunk "s" st "s" "Setup DB" c)
          (handleTaskStarted "s" ⟨0, "", [], false, "", none, [], false, false⟩ "s"
            "Setup DB" (some "create the database")))
        "s" ⟨"Setup DB", none, some "done", some "abc123", some "add db", none⟩).taskResults
      = [⟨"Setup DB", none, some "done", "completed", some "abc123", some "add db", none⟩] := by
  have h := C4_task_completed_overwrites_wholesale "s" "Setup DB"
    (some "create the database") [some "cha", some "nge"]
    ⟨"Setup DB", none, some "done", some "abc123", some "add db", none⟩
    ⟨0, "", [], false, "", none, [], false, false⟩ (by simp) rfl
  rw [h.1]
  decide

/-- C5: a `tasks_complete` event for the active session that carries a
truthy `tasks_text` field and no `tasks` field still advances the stage to
3 (TasksReady), leaves the structured task list empty (given it was empty
before), sets the user-visible unexpected-format error, and retains the
raw text in the streaming buffer for display. -/
theorem C5_tasks_text_fallback (sid t : String) (s : PrdState)
    (h0 : s.tasks = []) (ht : t ≠ "") :
    (handleTasksComplete sid s sid none (some t)).activeStep = 3 ∧
    (handleTasksComplete sid s sid none (some t)).tasks = [] ∧
    (handleTasksComplete sid s sid none (some t)).error
      = some "Tasks were generated but not in the expected format" ∧
    (handleTasksComplete sid s sid none (some t)).streamingContent = t ∧
    (handleTasksComplete sid s sid none (some t)).loading = false := by
  simp [handleTasksComplete, jsTruthy, ht, h0]

theorem C5_tasks_text_fallback_witness :
    (⟨0, "", [], true, "", none, [], false, false⟩ : PrdState).tasks = [] ∧
    ("not json" : String) ≠ "" ∧
    ((handleTasksComplete "s" ⟨0, "", [], true, "", none, [], false, false⟩ "s"
        none (some "not json")).activeStep = 3 ∧
     (handleTasksComplete "s" ⟨0, "", [], true, "", none, [], false, false⟩ "s"
        none (some "not json")).tasks = [] ∧
     (handleTasksComplete "s" ⟨0, "", [], true, "", none, [], false, false⟩ "s"
        none (some "not json")).error
        = some "Tasks were generated but not in the expected format" ∧
     (handleTasksComplete "s" ⟨0, "", [], true, "", none, [], false, false⟩ "s"
        none (some "not json")).streamingContent = "not json" ∧
     (handleTasksComplete "s" ⟨0, "", [], true, "", none, [], false, false⟩ "s"
        none (some "not json")).loading = false) :=
  ⟨rfl, by decide, C5_tasks_text_fallback "s" "not json" _ rfl (by decide)⟩

/-- C6 (counterexample): in the eventsource variant of ChatInterface, a
`message_complete` for the active session preceded by zero chunks appends
nothing: the empty streaming buffer fails the truthiness guard, so no
assistant message with empty content is produced. -/
theorem C6_counterexample :
    handleMessageCompleteES "s" ⟨[], "", true⟩ "s" = (⟨[], "", false⟩ : ChatState) ∧
    (handleMessageCompleteES "s" ⟨[], "", true⟩ "s").messages
      ≠ [plainMsg "assistant" ""] := by decide

/-- C6 (amended): a `message_complete` for the active session preceded by
zero chunks is handled without requiring prior chunks in both variants,
but they differ: the socket variant appends an assistant message with
empty content, while the eventsource variant appends no message at all and
only clears the buffer and the loading flag. -/
theorem C6_amended_completion_without_chunks (sid : String) (s : ChatState)
    (h : s.streamingContent = "") :
    (handleMessageComplete sid s sid).messages = s.messages ++ [plainMsg "assistant" ""] ∧
    (handleMessageCompleteES sid s sid).messages = s.messages ∧
    (handleMessageCompleteES sid s sid).streamingContent = "" ∧
    (handleMessageCompleteES sid s sid).isLoading = false := by
  simp [handleMessageComplete, handleMessageCompleteES, jsTruthy, h]

theorem C6_amended_completion_without_chunks_witness :
    (⟨[], "", true⟩ : ChatState).streamingContent = "" ∧
    ((handleMessageComplete "s" ⟨[], "", true⟩ "s").messages
        = [plainMsg "assistant" ""] ∧
     (handleMessageCompleteES "s" ⟨[], "", true⟩ "s").messages = [] ∧
     (handleMessageCompleteES "s" ⟨[], "", true⟩ "s").streamingContent = "" ∧
     (handleMessageCompleteES "s" ⟨[], "", true⟩ "s").isLoading = false) :=
  ⟨rfl, C6_amended_completion_without_chunks "s" ⟨[], "", true⟩ rfl⟩

/-- C7 (counterexample): a `task_chunk` event for the active session whose
name matches no entry with status running is not always dropped: the
lookup is by name only, so a chunk whose name matches a completed entry is
appended to that completed entry and the task-results list changes. -/
theorem C7_counterexample :
    (handleTaskChunk "s"
        ⟨0, "", [], false, "", none,
          [⟨"t", none, some "done", "completed", none, none, none⟩], false, false⟩
        "s" "t" (some "x")).taskResults
      = [⟨"t", none, some "donex", "completed", none, none, none⟩] ∧
    [(⟨"t", none, some "donex", "completed", none, none, none⟩ : TaskEntry)]
      ≠ [(⟨"t", none, some "done", "completed", none, none, none⟩ : TaskEntry)] := by decide

/-- C7 (amended): a `task_chunk` event for the active session whose
task name matches no entry at all (of any status) is dropped: the whole
state, task-results list included, is left unchanged, so a chunk cannot
retroactively materialize an entry without a prior `task_started` event.
The lookup is by name only: a chunk whose name matches a completed entry
is still appended to it. -/
theorem C7_amended_unmatched_chunk_dropped (sid n : String) (c : Option String)
    (s : PrdState) (h : ∀ r ∈ s.taskResults, r.task_name ≠ n) :
    handleTaskChunk sid s sid n c = s := by
  have hl : ∀ x ∈ s.taskResults, (x.task_name == n) = false := by
    intro x hx
    simpa using h x hx
  simp [handleTaskChunk, updateFirst_no_match _ _ _ hl]

theorem C7_amended_unmatched_chunk_dropped_witness :
    handleTaskChunk "s"
        ⟨0, "", [], false, "", none,
          [⟨"other", none, some "", "running", none, none, none⟩], false, false⟩
        "s" "t" (some "x")
      = ⟨0, "", [], false, "", none,
          [⟨"other", none, some "", "running", none, none, none⟩], false, false⟩ :=
  C7_amended_unmatched_chunk_dropped "s" "t" (some "x") _ (by decide)

/-- C8 (counterexample): a toggle whose add request resolves with a
non-success acknowledgement leaves the membership view unchanged but
surfaces no error: the error field stays none, against the claim that an
error is surfaced whenever the request reports non-success. -/
theorem C8_counterexample :
    (handleToggleFile ⟨["a"], [], false, none⟩ "a" (ApiOutcome.ok ⟨"error"⟩)).1.inchatFiles
      = [] ∧
    (handleToggleFile ⟨["a"], [], false, none⟩ "a" (ApiOutcome.ok ⟨"error"⟩)).1.error
      = none := by decide

/-- C8 (amended): `handleToggleFile` issues a remove request when the path
is in the in-chat set and an add request otherwise; the membership view is
updated only when the acknowledgement reports success; on a thrown request
failure the view is unchanged and an error is surfaced; on a non-success
acknowledgement the view is likewise unchanged but no error is surfaced. -/
theorem C8_amended_toggle_semantics (s : FileState) (f : String) (o : ApiOutcome) :
    handleToggleFile s f o =
      ((match o with
        | .ok resp =>
          if resp.status = "success" then
            { s with
              inchatFiles :=
                if s.inchatFiles.contains f then s.inchatFiles.filter (fun x => x != f)
                else s.inchatFiles ++ [f]
              isLoading := false }
          else { s with isLoading := false }
        | .exn m =>
          { s with
            error := some ((if s.inchatFiles.contains f then "Error removing file: "
                            else "Error adding file: ") ++ m)
            isLoading := false }),
       some (if s.inchatFiles.contains f then FileRequest.remove f else FileRequest.add f)) := by
  cases hc : s.inchatFiles.contains f with
  | false =>
    have hm : ¬ f ∈ s.inchatFiles := by simpa using hc
    cases o with
    | ok resp =>
      by_cases hs : resp.status = "success" <;>
        simp [handleToggleFile, handleAddFile, hc, hm, hs]
    | exn m => simp [handleToggleFile, handleAddFile, hc, hm]
  | true =>
    have hm : f ∈ s.inchatFiles := by simpa using hc
    cases o with
    | ok resp =>
      by_cases hs : resp.status = "success" <;>
        simp [handleToggleFile, handleRemoveFile, hc, hm, hs]
    | exn m => simp [handleToggleFile, handleRemoveFile, hc, hm]

/-- C9 (counterexample): the two FileManager variants disagree with the
claimed display order: with files [a, b], in-chat set [b] and an empty
search term, the basic FileManager displays [a, b] (server order, in-chat
entry last), while the claimed stable partition (as computed by the
enhanced variant) is [b, a]. -/
theorem C9_counterexample :
    filteredFiles ["a", "b"] "" = ["a", "b"] ∧
    filteredFilesInChatFirst ["a", "b"] ["b"] "" = ["b", "a"] ∧
    (["a", "b"] : List String) ≠ ["b", "a"] := by decide

/-- C9 (amended): the enhanced FileManager (src/unnamed/part_001) displays
a stable partition of the search-matching files: matching in-chat entries
first, then matching not-in-chat entries, each group a filter of the
server-supplied list and therefore in server order (a sublist of it); the
basic FileManager (FileManager.jsx) instead displays the matching files
purely in server order without moving in-chat entries first. -/
theorem C9_amended_enhanced_is_stable_partition (files inchatFiles : List String)
    (searchTerm : String) :
    filteredFilesInChatFirst files inchatFiles searchTerm
      = files.filter (fun f => inchatFiles.contains f && fileMatches searchTerm f)
        ++ files.filter (fun f => !(inchatFiles.contains f) && fileMatches searchTerm f) ∧
    (files.filter (fun f => inchatFiles.contains f && fileMatches searchTerm f)).Sublist
      files ∧
    (files.filter
        (fun f => !(inchatFiles.contains f) && fileMatches searchTerm f)).Sublist files ∧
    (filteredFiles files searchTerm).Sublist files := by
  refine ⟨?_, List.filter_sublist files, List.filter_sublist files,
    List.filter_sublist files⟩
  simp [filteredFilesInChatFirst, List.filter_filter]

/-- C10: a `message_chunk` or `prd_chunk` event for the active session
whose chunk field is missing leaves the streaming buffer, and the whole
component state, unchanged: the missing fragment is replaced by the empty
string by the `chunk || ""` guard, so the aggregate never picks up an
undefined coercion. -/
theorem C10_missing_chunk_leaves_buffer (sid : String) (cs : ChatState) (ps : PrdState) :
    handleMessageChunk sid cs sid none = cs ∧ handlePrdChunk sid ps sid none = ps := by
  constructor <;> simp [handleMessageChunk, handlePrdChunk, jsOrEmpty]

end Newrev
